import Mathlib

/-!
Verification of the book-cataloguing service (multi-tenant authors/books REST
API) against its specification.  The relational store is modelled as explicit
lists of rows; SQLAlchemy queries become list combinators:
`query.filter(p).first()` is `List.find?`, `.offset(s).limit(n).all()` is
`(List.drop s) ∘ (List.take n)`, row deletion by primary key is `List.filter`,
and a flush of field assignments on a fetched row is a `List.map` replacing the
row with the matching primary key.  Python exceptions are reified in an
explicit error type; every stateful operation returns the (possibly updated)
database paired with its outcome, so "no write happened" is the statement that
the returned database equals the input one.
-/

namespace HubSecurity

/-- Python exceptions that cross the layers we model: `ValueError` raised by
business-rule validation, and `TypeError` raised by the runtime itself
(e.g. comparing `None` with an `int`). -/
inductive PyError where
  | valueError (msg : String)
  | typeError (msg : String)
deriving DecidableEq, Repr

/-- Row of the `authors` table (app/models/author.py): integer primary key,
required name, nullable biography, owning user id (FK to users). -/
structure Author where
  id : Nat
  name : String
  biography : Option String
  user_id : Nat
deriving DecidableEq, Repr

/-- Row of the `books` table (app/models/book.py): integer primary key,
required title, nullable description/genre/publication_year, author FK and
owning user FK. -/
structure Book where
  id : Nat
  title : String
  description : Option String
  genre : Option String
  publication_year : Option Int
  author_id : Nat
  user_id : Nat
deriving DecidableEq, Repr

/-- The relational store for the author/book tables. -/
structure DB where
  authors : List Author
  books : List Book
deriving DecidableEq, Repr

/-- `AuthorUpdate` schema (app/schemas/author.py): every field optional;
`some v` models a field present in the request (pydantic `exclude_unset`). -/
structure AuthorUpdate where
  name : Option String := none
  biography : Option String := none
deriving DecidableEq, Repr

/-- `BookCreate` schema (app/schemas/book.py): title and author_id required,
description/genre/publication_year optional (default `None`). -/
structure BookCreate where
  title : String
  description : Option String := none
  genre : Option String := none
  publication_year : Option Int := none
  author_id : Nat
deriving DecidableEq, Repr

/-- `BookUpdate` schema (app/schemas/book.py): every field optional; `some v`
models a field supplied in the request (pydantic `exclude_unset`). -/
structure BookUpdate where
  title : Option String := none
  description : Option String := none
  genre : Option String := none
  publication_year : Option Int := none
  author_id : Option Nat := none
deriving DecidableEq, Repr

/-- app/crud/author.py `get_author`: first row with matching id AND matching
owning user id. -/
def get_author (db : DB) (author_id user_id : Nat) : Option Author :=
  db.authors.find? (fun a => a.id == author_id && a.user_id == user_id)

/-- app/crud/author.py `get_authors`: rows of the calling user, with
offset/limit pagination. -/
def get_authors (db : DB) (user_id skip limit : Nat) : List Author :=
  ((db.authors.filter (fun a => a.user_id == user_id)).drop skip).take limit

/-- Fresh primary key for an author row (autoincrement). -/
def nextAuthorId (db : DB) : Nat :=
  (db.authors.map Author.id).foldr max 0 + 1

/-- app/crud/author.py `create_author`: insert a new row owned by `user_id`. -/
def create_author (db : DB) (name : String) (biography : Option String)
    (user_id : Nat) : DB × Author :=
  let a : Author := { id := nextAuthorId db, name := name,
                      biography := biography, user_id := user_id }
  ({ db with authors := db.authors ++ [a] }, a)

/-- Apply the supplied fields of an `AuthorUpdate` to a row
(the `setattr` loop over `model_dump(exclude_unset=True)`). -/
def applyAuthorUpdate (u : AuthorUpdate) (a : Author) : Author :=
  { a with name := u.name.getD a.name,
           biography := match u.biography with
                        | some b => some b
                        | none => a.biography }

/-- app/crud/author.py `update_author`: fetch via `get_author` (ownership
filter included); return `none` leaving the store untouched when absent,
else write the updated row back. -/
def update_author (db : DB) (author_id : Nat) (u : AuthorUpdate)
    (user_id : Nat) : DB × Option Author :=
  match get_author db author_id user_id with
  | none => (db, none)
  | some a =>
      let a' := applyAuthorUpdate u a
      ({ db with authors := db.authors.map (fun x => if x.id == a.id then a' else x) },
       some a')

/-- app/crud/author.py `delete_author`: fetch via `get_author`; `False` when
absent.  `db.delete(author)` removes the row with that primary key, and the
`cascade="all, delete-orphan"` relationship in app/models/author.py removes
every book whose `author_id` references it in the same operation. -/
def delete_author (db : DB) (author_id user_id : Nat) : DB × Bool :=
  match get_author db author_id user_id with
  | none => (db, false)
  | some a =>
      ({ authors := db.authors.filter (fun x => x.id != a.id),
         books := db.books.filter (fun b => b.author_id != a.id) }, true)

/-- app/crud/book.py `get_book`: first row with matching id AND matching
owning user id. -/
def get_book (db : DB) (book_id user_id : Nat) : Option Book :=
  db.books.find? (fun b => b.id == book_id && b.user_id == user_id)

/-- Fresh primary key for a book row (autoincrement). -/
def nextBookId (db : DB) : Nat :=
  (db.books.map Book.id).foldr max 0 + 1

/-- The row `Book(**book.model_dump(), user_id=user_id)` built by
app/crud/book.py `create_book`, with its autoincrement primary key. -/
def mkBook (db : DB) (bc : BookCreate) (user_id : Nat) : Book :=
  { id := nextBookId db, title := bc.title,
    description := bc.description, genre := bc.genre,
    publication_year := bc.publication_year,
    author_id := bc.author_id, user_id := user_id }

/-- app/crud/book.py `create_book`: verify the referenced author belongs to
the user BEFORE inserting; raise `ValueError` (store untouched) otherwise. -/
def crud_create_book (db : DB) (bc : BookCreate) (user_id : Nat) :
    DB × Except PyError Book :=
  match get_author db bc.author_id user_id with
  | none => (db, Except.error (PyError.valueError
      "Author not found or does not belong to user"))
  | some _ =>
      ({ db with books := db.books ++ [mkBook db bc user_id] },
       Except.ok (mkBook db bc user_id))

/-- Apply the supplied fields of a `BookUpdate` to a row
(the `setattr` loop over `model_dump(exclude_unset=True)`). -/
def applyBookUpdate (u : BookUpdate) (b : Book) : Book :=
  { b with title := u.title.getD b.title,
           description := match u.description with
                          | some d => some d
                          | none => b.description,
           genre := match u.genre with
                    | some g => some g
                    | none => b.genre,
           publication_year := match u.publication_year with
                               | some y => some y
                               | none => b.publication_year,
           author_id := u.author_id.getD b.author_id }

/-- Write back an updated book row (commit of the `setattr` loop). -/
def commitBookUpdate (db : DB) (u : BookUpdate) (b : Book) :
    DB × Except PyError (Option Book) :=
  let b' := applyBookUpdate u b
  ({ db with books := db.books.map (fun x => if x.id == b.id then b' else x) },
   Except.ok (some b'))

/-- app/crud/book.py `update_book`: fetch via `get_book` (ownership filter);
`none` when absent.  When the update supplies `author_id`, verify the author
belongs to the user BEFORE any field is written; `ValueError` (store
untouched) otherwise. -/
def crud_update_book (db : DB) (book_id : Nat) (u : BookUpdate)
    (user_id : Nat) : DB × Except PyError (Option Book) :=
  match get_book db book_id user_id with
  | none => (db, Except.ok none)
  | some b =>
      match u.author_id with
      | some aid =>
          match get_author db aid user_id with
          | none => (db, Except.error (PyError.valueError
              "Author not found or does not belong to user"))
          | some _ => commitBookUpdate db u b
      | none => commitBookUpdate db u b

/-- app/crud/book.py `delete_book`: fetch via `get_book`; `False` when absent,
else remove the row with that primary key. -/
def delete_book (db : DB) (book_id user_id : Nat) : DB × Bool :=
  match get_book db book_id user_id with
  | none => (db, false)
  | some b =>
      ({ db with books := db.books.filter (fun x => x.id != b.id) }, true)

/-- C1: every Author read/update/delete keyed by (entity id, user id) treats a
row owned by another user exactly like a nonexistent row: `none` / `False`
with the store untouched — the ownership predicate is conjoined with the id in
`get_author`/`get_book`, and update/delete go through that same lookup, so no
"forbidden" outcome is even representable. -/
theorem author_ops_invisible_across_users (db : DB) (i u : Nat)
    (au : AuthorUpdate) (bu : BookUpdate)
    (ha : ∀ a ∈ db.authors, a.id = i → a.user_id ≠ u)
    (hb : ∀ b ∈ db.books, b.id = i → b.user_id ≠ u) :
    get_author db i u = none ∧
    update_author db i au u = (db, none) ∧
    delete_author db i u = (db, false) ∧
    get_book db i u = none ∧
    crud_update_book db i bu u = (db, Except.ok none) ∧
    delete_book db i u = (db, false) := by
  have hga : get_author db i u = none := by
    apply List.find?_eq_none.mpr
    intro a hmem
    simp only [Bool.and_eq_true, beq_iff_eq, not_and]
    intro hid
    exact ha a hmem hid
  have hgb : get_book db i u = none := by
    apply List.find?_eq_none.mpr
    intro b hmem
    simp only [Bool.and_eq_true, beq_iff_eq, not_and]
    intro hid
    exact hb b hmem hid
  refine ⟨hga, ?_, ?_, hgb, ?_, ?_⟩
  · simp [update_author, hga]
  · simp [delete_author, hga]
  · simp [crud_update_book, hgb]
  · simp [delete_book, hgb]

/-- Well-formedness of the store: author primary keys are pairwise distinct.
This is the `id = Column(Integer, primary_key=True)` schema constraint. -/
def authorIdsNodup (db : DB) : Prop := (db.authors.map Author.id).Nodup

/-- Well-formedness of the store: book primary keys are pairwise distinct. -/
def bookIdsNodup (db : DB) : Prop := (db.books.map Book.id).Nodup

instance (db : DB) : Decidable (authorIdsNodup db) := by
  unfold authorIdsNodup; infer_instance

instance (db : DB) : Decidable (bookIdsNodup db) := by
  unfold bookIdsNodup; infer_instance

/-- Demo store used by concrete witnesses: user 2 owns author 1 and book 1;
user 1 owns nothing. -/
def dbCross : DB :=
  { authors := [{ id := 1, name := "A", biography := some "b", user_id := 2 }],
    books := [{ id := 1, title := "T", description := none, genre := none,
                publication_year := some 2000, author_id := 1, user_id := 2 }] }

/-- Witness for C1 at a concrete store: user 1 probing user 2's author 1 and
book 1 gets exactly the nonexistent-id outcomes. -/
theorem author_ops_invisible_across_users_witness :
    get_author dbCross 1 1 = none ∧
    update_author dbCross 1 { name := some "X" } 1 = (dbCross, none) ∧
    delete_author dbCross 1 1 = (dbCross, false) ∧
    get_book dbCross 1 1 = none ∧
    crud_update_book dbCross 1 { title := some "X" } 1 = (dbCross, Except.ok none) ∧
    delete_book dbCross 1 1 = (dbCross, false) :=
  author_ops_invisible_across_users dbCross 1 1 { name := some "X" }
    { title := some "X" } (by decide) (by decide)

/-- C4: deleting an Author the user owns succeeds and, in the same operation,
removes that author row and every Book row referencing it; afterwards a get on
the author or on any of those books (by any user) finds nothing, and books
referencing other authors survive.  Primary-key uniqueness (`bookIdsNodup`) is
the schema constraint needed so that a surviving row cannot shadow a deleted
book id. -/
theorem delete_author_cascades (db : DB) (i u : Nat) (a : Author)
    (hwf : bookIdsNodup db) (hget : get_author db i u = some a) :
    (delete_author db i u).2 = true ∧
    (∀ v, get_author (delete_author db i u).1 i v = none) ∧
    (∀ b ∈ db.books, b.author_id = i →
       ∀ v, get_book (delete_author db i u).1 b.id v = none) ∧
    (∀ b ∈ db.books, b.author_id ≠ i → b ∈ (delete_author db i u).1.books) ∧
    (delete_author db i u).1.books = db.books.filter (fun b => b.author_id != i) := by
  have hpred := List.find?_some hget
  have haid : a.id = i := by
    simp only [Bool.and_eq_true, beq_iff_eq] at hpred
    exact hpred.1
  have hdel : delete_author db i u =
      ({ authors := db.authors.filter (fun x => x.id != a.id),
         books := db.books.filter (fun b => b.author_id != a.id) }, true) := by
    simp [delete_author, hget]
  refine ⟨by simp [hdel], ?_, ?_, ?_, ?_⟩
  · intro v
    rw [hdel]
    apply List.find?_eq_none.mpr
    intro x hx
    have hxid : x.id ≠ a.id := by
      have := (List.mem_filter.mp hx).2
      simpa using this
    simp only [Bool.and_eq_true, beq_iff_eq, not_and]
    intro hxi
    exact absurd (hxi.trans haid.symm) hxid
  · intro b hb hbref v
    rw [hdel]
    apply List.find?_eq_none.mpr
    intro c hc
    have hcmem : c ∈ db.books := (List.mem_filter.mp hc).1
    have hcref : c.author_id ≠ a.id := by
      have := (List.mem_filter.mp hc).2
      simpa using this
    simp only [Bool.and_eq_true, beq_iff_eq, not_and]
    intro hcid
    have hceq : c = b := List.inj_on_of_nodup_map hwf hcmem hb hcid
    intro _
    exact hcref (by rw [hceq, hbref]; exact haid.symm)
  · intro b hb hbref
    rw [hdel]
    exact List.mem_filter.mpr ⟨hb, by simpa [haid] using hbref⟩
  · rw [hdel, haid]

/-- Author row used by the cascade witness. -/
def casAuthor1 : Author := { id := 1, name := "A1", biography := none, user_id := 1 }

/-- First book referencing author 1 in the cascade witness store. -/
def casBook1 : Book :=
  { id := 1, title := "B1", description := none, genre := none,
    publication_year := none, author_id := 1, user_id := 1 }

/-- Second book referencing author 1 in the cascade witness store. -/
def casBook2 : Book :=
  { id := 2, title := "B2", description := none, genre := none,
    publication_year := none, author_id := 1, user_id := 1 }

/-- Book referencing author 2 in the cascade witness store. -/
def casBook3 : Book :=
  { id := 3, title := "B3", description := none, genre := none,
    publication_year := none, author_id := 2, user_id := 1 }

/-- Demo store for the cascade witness: user 1 owns authors 1 and 2; books 1
and 2 reference author 1, book 3 references author 2. -/
def dbCascade : DB :=
  { authors := [casAuthor1, { id := 2, name := "A2", biography := none, user_id := 1 }],
    books := [casBook1, casBook2, casBook3] }

/-- Witness for C4: deleting author 1 removes books 1 and 2, keeps book 3. -/
theorem delete_author_cascades_witness :
    (delete_author dbCascade 1 1).2 = true ∧
    get_author (delete_author dbCascade 1 1).1 1 1 = none ∧
    get_book (delete_author dbCascade 1 1).1 1 1 = none ∧
    get_book (delete_author dbCascade 1 1).1 2 1 = none ∧
    (delete_author dbCascade 1 1).1.books =
      dbCascade.books.filter (fun b => b.author_id != 1) := by
  have h := delete_author_cascades dbCascade 1 1 casAuthor1 (by decide) (by decide)
  exact ⟨h.1, h.2.1 1, h.2.2.1 casBook1 (by decide) (by decide) 1,
    h.2.2.1 casBook2 (by decide) (by decide) 1, h.2.2.2.2⟩

/-- C2 counterexample: an update-book call that supplies an `author_id` for
which no matching Author exists, issued against a book id that does not exist
either, returns the not-found outcome `none` (store untouched) — app/crud/book.py
`update_book` looks the book up before it ever reaches the author check — so
the claim that such an operation "fails with a validation error (not a
not-found outcome)" is false at this input. -/
theorem update_book_author_check_skipped_cex :
    crud_update_book { authors := [], books := [] } 5 { author_id := some 7 } 1 =
      ({ authors := [], books := [] }, Except.ok none) ∧
    get_author { authors := [], books := [] } 7 1 = none := by
  constructor
  · rfl
  · rfl

/-- C2 (amended): for create-book, and for update-book PROVIDED the target
book exists and is owned by the user, a supplied `author_id` with no matching
Author owned by the same user fails with `ValueError` before any row is
inserted or modified (the returned store is the input store), and when the
Author exists the write proceeds. -/
theorem book_author_check_before_write (db : DB) (bc : BookCreate)
    (bu : BookUpdate) (book_id uid aid : Nat) (b0 : Book)
    (hbu : bu.author_id = some aid) :
    (get_author db bc.author_id uid = none →
       crud_create_book db bc uid = (db, Except.error (PyError.valueError
         "Author not found or does not belong to user"))) ∧
    ((get_author db bc.author_id uid).isSome →
       crud_create_book db bc uid =
         ({ db with books := db.books ++ [mkBook db bc uid] },
          Except.ok (mkBook db bc uid)) ∧
       (mkBook db bc uid).author_id = bc.author_id ∧
       (mkBook db bc uid).user_id = uid) ∧
    (get_book db book_id uid = some b0 →
       (get_author db aid uid = none →
          crud_update_book db book_id bu uid = (db, Except.error (PyError.valueError
            "Author not found or does not belong to user"))) ∧
       ((get_author db aid uid).isSome →
          crud_update_book db book_id bu uid = commitBookUpdate db bu b0)) := by
  refine ⟨?_, ?_, ?_⟩
  · intro h
    simp [crud_create_book, h]
  · intro h
    obtain ⟨a, ha⟩ := Option.isSome_iff_exists.mp h
    exact ⟨by simp [crud_create_book, ha], rfl, rfl⟩
  · intro hbook
    constructor
    · intro h
      simp [crud_update_book, hbook, hbu, h]
    · intro h
      obtain ⟨a, ha⟩ := Option.isSome_iff_exists.mp h
      simp [crud_update_book, hbook, hbu, ha]

/-- Create request referencing an author the calling user does not own. -/
def bcForeign : BookCreate := { title := "N", author_id := 1 }

/-- Create request referencing an author the calling user owns. -/
def bcOwn : BookCreate := { title := "N", author_id := 1 }

/-- Update supplying a dangling author reference. -/
def buDangling : BookUpdate := { author_id := some 99 }

/-- Update supplying a valid author reference. -/
def buValid : BookUpdate := { author_id := some 2 }

/-- Witness for C2 (amended): concrete stores exercising all four branches —
create rejected (author owned by another user) and accepted, update rejected
(dangling author on an existing book) and accepted. -/
theorem book_author_check_before_write_witness :
    crud_create_book dbCross bcForeign 1 =
      (dbCross, Except.error (PyError.valueError
        "Author not found or does not belong to user")) ∧
    crud_create_book dbCascade bcOwn 1 =
      ({ dbCascade with books := dbCascade.books ++ [mkBook dbCascade bcOwn 1] },
       Except.ok (mkBook dbCascade bcOwn 1)) ∧
    crud_update_book dbCascade 1 buDangling 1 =
      (dbCascade, Except.error (PyError.valueError
        "Author not found or does not belong to user")) ∧
    crud_update_book dbCascade 1 buValid 1 = commitBookUpdate dbCascade buValid casBook1 := by
  have h1 := book_author_check_before_write dbCross bcForeign buDangling 1 1 99
    casBook1 rfl
  have h2 := book_author_check_before_write dbCascade bcOwn buDangling 1 1 99
    casBook1 rfl
  have h3 := book_author_check_before_write dbCascade bcOwn buValid 1 1 2
    casBook1 rfl
  exact ⟨h1.1 (by decide), (h2.2.1 (by decide)).1,
    (h2.2.2 (by decide)).1 (by decide), (h3.2.2 (by decide)).2 (by decide)⟩

/-- Row of the `users` table (app/models/user.py): unique email and username,
stored password hash. -/
structure UserRow where
  id : Nat
  email : String
  username : String
  hashed_password : String
deriving DecidableEq, Repr

/-- `UserCreate` schema (app/schemas/user.py): email, username, password. -/
structure UserCreate where
  email : String
  username : String
  password : String
deriving DecidableEq, Repr

/-- Modelled from the spec: app/crud/user.py is not included under src/; this
is §4.3 `find_by_email` — first user row whose (unique) email matches. -/
def get_user_by_email (users : List UserRow) (email : String) : Option UserRow :=
  users.find? (fun u => u.email == email)

/-- Modelled from the spec: app/crud/user.py is not included under src/; this
is §4.3 `find_by_username` — first user row whose (unique) username matches. -/
def get_user_by_username (users : List UserRow) (username : String) : Option UserRow :=
  users.find? (fun u => u.username == username)

/-- Fresh primary key for a user row (autoincrement). -/
def nextUserId (users : List UserRow) : Nat :=
  (users.map UserRow.id).foldr max 0 + 1

/-- Modelled from the spec: app/crud/user.py is not included under src/; §4.3
`create` inserts a row whose password field holds the Credential Hasher's
output (the hasher itself is passed in as `hashFn`). -/
def crud_create_user (users : List UserRow) (uc : UserCreate)
    (hashFn : String → String) : List UserRow × UserRow :=
  let u : UserRow := { id := nextUserId users, email := uc.email,
                       username := uc.username,
                       hashed_password := hashFn uc.password }
  (users ++ [u], u)

/-- Python `"c" in s` for a single-character needle: character membership. -/
def strHasChar (s : String) (c : Char) : Bool := s.data.contains c

/-- Python `str.lower()`: character-wise lowercasing. -/
def strToLower (s : String) : String := String.mk (s.data.map Char.toLower)

/-- The deny-list of known-weak passwords in
app/services/user_service.py `create_user`. -/
def weakPasswords : List String := ["password", "123456", "qwerty", "admin"]

/-- app/services/user_service.py `UserService.create_user`: email-format,
password-length, weak-password and username-length validation, THEN the
duplicate-email and duplicate-username checks, THEN the insert.  Every failure
is a `ValueError` raised before the insert, so the store is returned
unchanged. -/
def UserService.create_user (users : List UserRow) (uc : UserCreate)
    (hashFn : String → String) : List UserRow × Except PyError UserRow :=
  if !(strHasChar uc.email '@') || !(strHasChar uc.email '.') then
    (users, Except.error (PyError.valueError "Invalid email format"))
  else if uc.password.length < 8 then
    (users, Except.error (PyError.valueError
      "Password must be at least 8 characters long"))
  else if weakPasswords.contains (strToLower uc.password) then
    (users, Except.error (PyError.valueError "Password is too weak"))
  else if uc.username.length < 3 then
    (users, Except.error (PyError.valueError
      "Username must be at least 3 characters long"))
  else if (get_user_by_email users uc.email).isSome then
    (users, Except.error (PyError.valueError "Email already registered"))
  else if (get_user_by_username users uc.username).isSome then
    (users, Except.error (PyError.valueError "Username already taken"))
  else
    let r := crud_create_user users uc hashFn
    (r.1, Except.ok r.2)

/-- app/services/user_service.py `UserService.authenticate_user`: empty
identifier or empty password short-circuits to `none` (Python falsiness of the
empty string); otherwise look the identifier up as an email first, then as a
username, and return the user exactly when the Credential Hasher (`vf`)
accepts the password against the stored hash. -/
def UserService.authenticate_user (vf : String → String → Bool)
    (users : List UserRow) (ident pwd : String) : Option UserRow :=
  if ident == "" || pwd == "" then none
  else
    match (match get_user_by_email users ident with
           | some u => some u
           | none => get_user_by_username users ident) with
    | none => none
    | some u => if vf pwd u.hashed_password then some u else none

/-- Stand-in deterministic hasher used only to instantiate concrete
witnesses (the abstract `hashFn`/`vf` parameters carry the real contract). -/
def hf1 : String → String := fun s => "H" ++ s

/-- Verifier induced by `hf1`: accept exactly the preimage. -/
def vfH : String → String → Bool := fun p h => h == "H" ++ p

/-- Registered demo user (password `secret123` hashed by `hf1`). -/
def uAlice : UserRow :=
  { id := 1, email := "a@x.com", username := "alice",
    hashed_password := "Hsecret123" }

/-- C5 counterexample: a registration request whose email is already
registered AND whose password is on the weak-password deny-list fails with the
weak-password error, not the duplicate-email error — the format/strength
validation in `UserService.create_user` runs before the duplicate checks, so
the claim "if the email already belongs to an existing user the operation
fails with a duplicate-email error", quantified over every registration
request, is false at this input. -/
theorem register_weak_password_preempts_duplicate_cex :
    UserService.create_user [uAlice]
      { email := "a@x.com", username := "bob77", password := "password" } hf1 =
      ([uAlice], Except.error (PyError.valueError "Password is too weak")) ∧
    (get_user_by_email [uAlice] "a@x.com").isSome = true := by
  constructor
  · rfl
  · rfl

/-- C5 (amended): PROVIDED the request passes the format/strength validation
(email contains `@` and `.`, password length ≥ 8 and not on the deny-list,
username length ≥ 3), registration fails with the duplicate-email error when
the email is taken, else with the duplicate-username error when the username
is taken, the store unchanged in both cases; otherwise the insert proceeds.
The duplicate checks thus precede the insert. -/
theorem register_duplicate_checks (users : List UserRow) (uc : UserCreate)
    (hashFn : String → String)
    (h1 : strHasChar uc.email '@' = true) (h2 : strHasChar uc.email '.' = true)
    (h3 : ¬ uc.password.length < 8)
    (h4 : weakPasswords.contains (strToLower uc.password) = false)
    (h5 : ¬ uc.username.length < 3) :
    UserService.create_user users uc hashFn =
      if (get_user_by_email users uc.email).isSome then
        (users, Except.error (PyError.valueError "Email already registered"))
      else if (get_user_by_username users uc.username).isSome then
        (users, Except.error (PyError.valueError "Username already taken"))
      else
        ((crud_create_user users uc hashFn).1,
         Except.ok (crud_create_user users uc hashFn).2) := by
  have h4' : strToLower uc.password ∉ weakPasswords := by
    simpa using h4
  simp [UserService.create_user, h1, h2, h3, h4', h5]

/-- Witness for C5 (amended): duplicate email yields the duplicate-email
error; fresh email with a duplicate username yields the duplicate-username
error; neither touches the store. -/
theorem register_duplicate_checks_witness :
    UserService.create_user [uAlice]
      { email := "a@x.com", username := "bob77", password := "secret123" } hf1 =
      ([uAlice], Except.error (PyError.valueError "Email already registered")) ∧
    UserService.create_user [uAlice]
      { email := "b@y.com", username := "alice", password := "secret123" } hf1 =
      ([uAlice], Except.error (PyError.valueError "Username already taken")) := by
  have hdupEmail := register_duplicate_checks [uAlice]
    { email := "a@x.com", username := "bob77", password := "secret123" } hf1
    (by decide) (by decide) (by decide) (by decide) (by decide)
  have hdupName := register_duplicate_checks [uAlice]
    { email := "b@y.com", username := "alice", password := "secret123" } hf1
    (by decide) (by decide) (by decide) (by decide) (by decide)
  constructor
  · rw [hdupEmail]; rfl
  · rw [hdupName]; rfl

/-- Demo user whose stored hash is the `hf1`-hash of the empty string (such a
row is not creatable through the service, but the directory contents are
universally quantified in C6). -/
def uEmptyPwd : UserRow :=
  { id := 2, email := "e@x.com", username := "eve", hashed_password := "H" }

/-- C6 counterexample: with a stored hash that the Credential Hasher accepts
for the empty password, authentication with the matching identifier and the
empty password returns `none` — the guard `if not username_or_email or not
password` fires before any lookup — although the identifier matches a user and
the password verifies against that user's stored hash, so "returns the matched
user exactly when the password verifies" is false at this input. -/
theorem authenticate_empty_password_cex :
    UserService.authenticate_user vfH [uEmptyPwd] "e@x.com" "" = none ∧
    get_user_by_email [uEmptyPwd] "e@x.com" = some uEmptyPwd ∧
    vfH "" uEmptyPwd.hashed_password = true := by
  refine ⟨rfl, rfl, rfl⟩

/-- C6 (amended): PROVIDED identifier and password are nonempty (the code
short-circuits to `none` on empty strings before any lookup), the identifier
is resolved as an email first and as a username only when the email lookup
misses, the resolved user is returned exactly when the verifier accepts the
password against the stored hash, and both "no user matched" and
"verification failed" yield the same `none`. -/
theorem authenticate_lookup_order (vf : String → String → Bool)
    (users : List UserRow) (ident pwd : String) (u : UserRow)
    (h1 : ident ≠ "") (h2 : pwd ≠ "") :
    (get_user_by_email users ident = some u →
       UserService.authenticate_user vf users ident pwd =
         (if vf pwd u.hashed_password then some u else none)) ∧
    (get_user_by_email users ident = none →
     get_user_by_username users ident = some u →
       UserService.authenticate_user vf users ident pwd =
         (if vf pwd u.hashed_password then some u else none)) ∧
    (get_user_by_email users ident = none →
     get_user_by_username users ident = none →
       UserService.authenticate_user vf users ident pwd = none) := by
  have hg : (ident == "" || pwd == "") = false := by
    simp [h1, h2]
  refine ⟨?_, ?_, ?_⟩
  · intro he
    simp [UserService.authenticate_user, hg, he]
  · intro he hn
    simp [UserService.authenticate_user, hg, he, hn]
  · intro he hn
    simp [UserService.authenticate_user, hg, he, hn]

/-- Witness for C6 (amended): the demo user authenticates by email and by
username with the correct password, and is refused with a wrong password. -/
theorem authenticate_lookup_order_witness :
    UserService.authenticate_user vfH [uAlice] "a@x.com" "secret123" = some uAlice ∧
    UserService.authenticate_user vfH [uAlice] "alice" "secret123" = some uAlice ∧
    UserService.authenticate_user vfH [uAlice] "alice" "wrongpass" = none := by
  have hEmail := (authenticate_lookup_order vfH [uAlice] "a@x.com" "secret123"
    uAlice (by decide) (by decide)).1 (by rfl)
  have hName := (authenticate_lookup_order vfH [uAlice] "alice" "secret123"
    uAlice (by decide) (by decide)).2.1 (by rfl) (by rfl)
  have hWrong := (authenticate_lookup_order vfH [uAlice] "alice" "wrongpass"
    uAlice (by decide) (by decide)).2.1 (by rfl) (by rfl)
  refine ⟨?_, ?_, ?_⟩
  · rw [hEmail]; rfl
  · rw [hName]; rfl
  · rw [hWrong]; rfl

/-- The decoded payload of a signed token: subject (user email) and expiry
instant.  Modelled from the spec (§4.2, Token claim in §3): app/core/security.py
is not included under src/. -/
structure TokenClaim where
  sub : String
  exp : Nat
deriving DecidableEq, Repr

/-- Modelled from the spec: a bearer token is either a structure signed with
some key and carrying its claim, or a string that does not decode at all
(malformed).  app/core/security.py is not included under src/; contract from
§4.2 and tests/test_security.py. -/
inductive Token where
  | signed (sub : String) (exp : Nat) (key : String)
  | malformed (raw : String)
deriving DecidableEq, Repr

/-- Modelled from the spec: §4.2 `issue_access_token` encodes
`{subject, expires_at: now+ttl}` and signs it with the server-held secret. -/
def create_access_token (secret sub : String) (now ttl : Nat) : Token :=
  Token.signed sub (now + ttl) secret

/-- Modelled from the spec: §4.2 `issue_refresh_token` — same mechanism with
its own (longer) TTL. -/
def create_refresh_token (secret sub : String) (now ttl : Nat) : Token :=
  Token.signed sub (now + ttl) secret

/-- Modelled from the spec: §4.2 `verify` — checks signature validity (the
signing key is the server secret) and expiry (a token is expired once the
current instant reaches `expires_at`), returning the decoded claim on success
and the sentinel `none` on every failure: wrong key, malformed token, or
expiry passed.  Total by construction — no exception crosses this boundary. -/
def verify_token (secret : String) (now : Nat) : Token → Option TokenClaim
  | Token.signed sub exp key =>
      if key = secret ∧ now < exp then some ⟨sub, exp⟩ else none
  | Token.malformed _ => none

/-- C3: a token issued at `now` with TTL `ttl` under the server secret
verifies to its claim at every instant before `now + ttl` and to the sentinel
at every instant from `now + ttl` on; and for an arbitrary token, verification
either yields the sentinel or the token is genuinely signed with the server
secret and unexpired and the decoded claim is returned.  `verify_token` is a
total function, so no failure can escape as an exception. -/
theorem token_verify_roundtrip (secret sub : String) (now ttl t : Nat) :
    verify_token secret t (create_access_token secret sub now ttl) =
      (if t < now + ttl then some ⟨sub, now + ttl⟩ else none) ∧
    (∀ tok : Token, verify_token secret t tok = none ∨
       ∃ s e, tok = Token.signed s e secret ∧ t < e ∧
         verify_token secret t tok = some ⟨s, e⟩) := by
  constructor
  · simp [create_access_token, verify_token]
  · intro tok
    cases tok with
    | malformed raw => exact Or.inl rfl
    | signed s e k =>
        by_cases h : k = secret ∧ t < e
        · refine Or.inr ⟨s, e, ?_, h.2, ?_⟩
          · rw [h.1]
          · simp [verify_token, h]
        · exact Or.inl (by simp [verify_token, h])

/-- Witness for C3 at concrete instants: a token issued at 100 with TTL 30
verifies at 129 and is rejected at 130, at 131, under a wrong key, and when
malformed. -/
theorem token_verify_roundtrip_witness :
    verify_token "k" 129 (create_access_token "k" "a@x.com" 100 30) =
      some ⟨"a@x.com", 130⟩ ∧
    verify_token "k" 130 (create_access_token "k" "a@x.com" 100 30) = none ∧
    verify_token "k" 131 (create_access_token "k" "a@x.com" 100 30) = none ∧
    verify_token "other" 129 (create_access_token "k" "a@x.com" 100 30) = none ∧
    verify_token "k" 0 (Token.malformed "junk") = none := by
  have h129 := (token_verify_roundtrip "k" "a@x.com" 100 30 129).1
  have h130 := (token_verify_roundtrip "k" "a@x.com" 100 30 130).1
  have h131 := (token_verify_roundtrip "k" "a@x.com" 100 30 131).1
  refine ⟨by rw [h129]; rfl, by rw [h130]; rfl, by rw [h131]; rfl, by decide, rfl⟩

/-- The public `User` schema (app/schemas/user.py): id, email, username —
password fields never serialized (timestamps elided). -/
structure PublicUser where
  id : Nat
  email : String
  username : String
deriving DecidableEq, Repr

/-- Projection of a user row to its public schema. -/
def publicUser (u : UserRow) : PublicUser :=
  { id := u.id, email := u.email, username := u.username }

/-- String rendering of a token (the compact serialization a JWT string
stands for). -/
def Token.encode : Token → String
  | Token.signed sub exp key => "signed:" ++ sub ++ ":" ++ toString exp ++ ":" ++ key
  | Token.malformed raw => raw

/-- The dict literally returned by the register handler in app/api/auth.py:
user, access_token, refresh_token, token_type. -/
structure RegisterHandlerDict where
  user : PublicUser
  access_token : String
  refresh_token : String
  token_type : String
deriving DecidableEq, Repr

/-- `UserRegisterResponse` (app/schemas/user.py): user, access_token,
token_type — it declares NO refresh_token field. -/
structure UserRegisterResponse where
  user : PublicUser
  access_token : String
  token_type : String
deriving DecidableEq, Repr

/-- FastAPI `response_model` filtering: the serialized 200 body keeps exactly
the fields declared on the response model, dropping the rest of the handler's
return value (framework contract; the absence of refresh_token in the body is
also what tests/test_auth.py encodes in its TODO). -/
def responseModelFilter (d : RegisterHandlerDict) : UserRegisterResponse :=
  { user := d.user, access_token := d.access_token, token_type := d.token_type }

/-- A top-level value of the serialized JSON body. -/
inductive BodyVal where
  | s (v : String)
  | u (v : PublicUser)
deriving DecidableEq, Repr

/-- Serialized 200 body of `POST /auth/register`: the key/value pairs of the
response model. -/
def registerBody (r : UserRegisterResponse) : List (String × BodyVal) :=
  [("user", BodyVal.u r.user),
   ("access_token", BodyVal.s r.access_token),
   ("token_type", BodyVal.s r.token_type)]

/-- Outcome of the register endpoint: 200 with the filtered body, 400 on a
`ValueError` from the service, anything else escapes unhandled. -/
inductive RegisterResult where
  | ok (r : UserRegisterResponse)
  | badRequest (msg : String)
  | unhandled (e : PyError)
deriving DecidableEq, Repr

/-- app/api/auth.py `register`: create the user through the service layer
(`except ValueError` becomes a 400), issue an access and a refresh token for
the new user, return the 4-field dict — which the `response_model` then
filters down to `UserRegisterResponse`. -/
def register_route (hashFn : String → String) (secret : String)
    (now accessTtl refreshTtl : Nat) (users : List UserRow) (uc : UserCreate) :
    List UserRow × RegisterResult :=
  match UserService.create_user users uc hashFn with
  | (us, Except.error (PyError.valueError m)) => (us, RegisterResult.badRequest m)
  | (us, Except.error e) => (us, RegisterResult.unhandled e)
  | (us, Except.ok u) =>
      let d : RegisterHandlerDict :=
        { user := publicUser u,
          access_token := (create_access_token secret u.email now accessTtl).encode,
          refresh_token := (create_refresh_token secret u.email now refreshTtl).encode,
          token_type := "bearer" }
      (us, RegisterResult.ok (responseModelFilter d))

/-- A fresh, valid registration request. -/
def ucAlice : UserCreate :=
  { email := "a@x.com", username := "alice", password := "secret123" }

/-- The 200 body produced for `ucAlice` on an empty directory (secret "k",
issued at 0, access TTL 30). -/
def regRespAlice : UserRegisterResponse :=
  { user := { id := 1, email := "a@x.com", username := "alice" },
    access_token := "signed:a@x.com:30:k",
    token_type := "bearer" }

/-- C7 counterexample: a concrete successful registration returns a 200 whose
serialized body has exactly the keys user / access_token / token_type — no
refresh_token — because `UserRegisterResponse` declares no such field and the
response model filters the handler's dict; the claim that the body contains a
refresh_token is false at this input. -/
theorem register_response_lacks_refresh_cex :
    (register_route hf1 "k" 0 30 10080 [] ucAlice).2 = RegisterResult.ok regRespAlice ∧
    ((registerBody regRespAlice).map Prod.fst).contains "refresh_token" = false ∧
    (registerBody regRespAlice).map Prod.fst = ["user", "access_token", "token_type"] := by
  refine ⟨rfl, rfl, rfl⟩

/-- C7 (amended): every successful registration returns a 200 whose body
carries the created user (public fields), an access_token, and token_type
"bearer" — but no refresh_token: the handler mints one, yet the response
model drops it from the serialized body. -/
theorem register_response_contents (hashFn : String → String) (secret : String)
    (now accessTtl refreshTtl : Nat) (users users' : List UserRow)
    (uc : UserCreate) (u : UserRow)
    (h : UserService.create_user users uc hashFn = (users', Except.ok u)) :
    register_route hashFn secret now accessTtl refreshTtl users uc =
      (users', RegisterResult.ok
        { user := publicUser u,
          access_token := (create_access_token secret u.email now accessTtl).encode,
          token_type := "bearer" }) ∧
    (registerBody
        { user := publicUser u,
          access_token := (create_access_token secret u.email now accessTtl).encode,
          token_type := "bearer" }).map Prod.fst =
      ["user", "access_token", "token_type"] := by
  constructor
  · simp [register_route, h, responseModelFilter]
  · rfl

/-- Witness for C7 (amended) at the concrete registration `ucAlice`. -/
theorem register_response_contents_witness :
    register_route hf1 "k" 0 30 10080 [] ucAlice =
      ([{ id := 1, email := "a@x.com", username := "alice",
          hashed_password := "Hsecret123" }], RegisterResult.ok regRespAlice) := by
  have h := register_response_contents hf1 "k" 0 30 10080 []
    [{ id := 1, email := "a@x.com", username := "alice",
       hashed_password := "Hsecret123" }] ucAlice
    { id := 1, email := "a@x.com", username := "alice",
      hashed_password := "Hsecret123" } rfl
  rw [h.1]; rfl

/-- app/services/book_service.py `BookService.get_user_book`: fetch via the
ownership-scoped `get_book`, with a redundant re-check of the owner. -/
def BookService.get_user_book (db : DB) (user_id book_id : Nat) : Option Book :=
  match get_book db book_id user_id with
  | some b => if b.user_id == user_id then some b else none
  | none => none

/-- app/services/book_service.py `BookService.create_book`.  The guard
`if book_data.publication_year > 2024` compares the optional field against the
LITERAL 2024 with no None-guard: an omitted publication_year makes Python
raise `TypeError` (comparing `None` with `int`), and a present year is
rejected whenever it exceeds 2024 regardless of the actual current year.
`if book_data.author_id:` is Python truthiness — the service-level author
check is skipped when author_id is 0 (the crud layer still checks it). -/
def BookService.create_book (db : DB) (bd : BookCreate) (user : Option UserRow) :
    DB × Except PyError Book :=
  match user with
  | none => (db, Except.error (PyError.valueError "User is required to create a book"))
  | some u =>
      match bd.publication_year with
      | none => (db, Except.error (PyError.typeError
          "unsupported comparison between NoneType and int"))
      | some y =>
          if y > 2024 then
            (db, Except.error (PyError.valueError
              "Publication year cannot be in the future"))
          else if bd.author_id != 0 then
            match get_author db bd.author_id u.id with
            | none => (db, Except.error (PyError.valueError "Author not found"))
            | some _ => crud_create_book db bd u.id
          else crud_create_book db bd u.id

/-- app/services/book_service.py `BookService.update_user_book`: not-found
check on the book first; here the year guard IS None-guarded
(`if book_data.publication_year and ... > 2024` — also skipped for the falsy
year 0), then the truthiness-guarded author check, then the crud update. -/
def BookService.update_user_book (db : DB) (user_id book_id : Nat)
    (bu : BookUpdate) : DB × Except PyError (Option Book) :=
  match BookService.get_user_book db user_id book_id with
  | none => (db, Except.ok none)
  | some _ =>
      let yearBad := match bu.publication_year with
                     | some y => y != 0 && decide (y > 2024)
                     | none => false
      if yearBad then
        (db, Except.error (PyError.valueError
          "Publication year cannot be in the future"))
      else
        let authorBad := match bu.author_id with
                         | some aid => aid != 0 && (get_author db aid user_id).isNone
                         | none => false
        if authorBad then (db, Except.error (PyError.valueError "Author not found"))
        else crud_update_book db book_id bu user_id

/-- Outcome of a book endpoint: 200 with the book, 400 from a caught
`ValueError`, anything else escapes the handler unhandled. -/
inductive BookRouteResult where
  | ok (b : Book)
  | badRequest (msg : String)
  | unhandled (e : PyError)
deriving DecidableEq, Repr

/-- app/api/book.py `create_new_book`: call the service for the authenticated
user; `except ValueError` becomes a 400; any other exception propagates past
the handler as an unhandled fault. -/
def create_new_book (db : DB) (bc : BookCreate) (u : UserRow) :
    DB × BookRouteResult :=
  match BookService.create_book db bc (some u) with
  | (db', Except.ok b) => (db', BookRouteResult.ok b)
  | (db', Except.error (PyError.valueError m)) => (db', BookRouteResult.badRequest m)
  | (db', Except.error e) => (db', BookRouteResult.unhandled e)

/-- Store with a single author (id 1) owned by user 1 and no books. -/
def dbOneAuthor : DB := { authors := [casAuthor1], books := [] }

/-- A create-book request that omits the optional publication_year. -/
def bcNoYear : BookCreate := { title := "T", author_id := 1 }

/-- A create-book request with publication_year 2025 and a valid author. -/
def bc2025 : BookCreate :=
  { title := "T", publication_year := some 2025, author_id := 1 }

/-- C8: the publication-year guard compares against the literal 2024, not the
current year at operation time — `BookService.create_book` and
`BookService.update_user_book` reject the year 2025 with the validation error
"Publication year cannot be in the future" although 2025 does not exceed the
current year (2026) at the time of this verification; the final conjunct
records that rejected 2025 ≤ 2026. -/
theorem publication_year_hardcoded_2024 :
    BookService.create_book dbOneAuthor bc2025 (some uAlice) =
      (dbOneAuthor, Except.error (PyError.valueError
        "Publication year cannot be in the future")) ∧
    BookService.update_user_book dbCascade 1 1 { publication_year := some 2025 } =
      (dbCascade, Except.error (PyError.valueError
        "Publication year cannot be in the future")) ∧
    (2025 : Int) ≤ 2026 := by
  refine ⟨rfl, rfl, by decide⟩

/-- C9: a create-book request by an authenticated user that omits the optional
publication_year (its schema default `None`) reaches the unguarded comparison
`book_data.publication_year > 2024`, which raises `TypeError` — not a
`ValueError` — so the route's `except ValueError` does not catch it and the
error escapes the request handler as an unhandled fault, contradicting the
spec's requirement that every failure is translated to a response. -/
theorem create_book_omitted_year_unhandled :
    create_new_book dbOneAuthor bcNoYear uAlice =
      (dbOneAuthor, BookRouteResult.unhandled (PyError.typeError
        "unsupported comparison between NoneType and int")) ∧
    bcNoYear.publication_year = none ∧
    (get_author dbOneAuthor bcNoYear.author_id uAlice.id).isSome = true := by
  refine ⟨rfl, rfl, rfl⟩

/-- app/crud/book.py `get_books_with_pagination`: filter to the caller's rows,
apply the truthiness-guarded optional filters, count the total BEFORE
offset/limit, then page. -/
def get_books_with_pagination (db : DB) (user_id skip limit : Nat)
    (author_id : Option Nat) (genre : Option String)
    (publication_year : Option Int) : List Book × Nat :=
  let q0 := db.books.filter (fun b => b.user_id == user_id)
  let q1 := match author_id with
            | some a => if a != 0 then q0.filter (fun b : Book => b.author_id == a) else q0
            | none => q0
  let q2 := match genre with
            | some g => if g != "" then q1.filter (fun b : Book => b.genre == some g) else q1
            | none => q1
  let q3 := match publication_year with
            | some y => if y != 0 then q2.filter (fun b : Book => b.publication_year == some y) else q2
            | none => q2
  ((q3.drop skip).take limit, q3.length)

/-- `PaginatedResponse` as constructed in app/api/book.py `read_books`
(the schema class itself is imported from app.schemas.book, whose declaration
is not in the src/ copy; fields are those of the constructor call and
spec §4.5). -/
structure PaginatedResponse where
  items : List Book
  total : Nat
  page : Nat
  size : Nat
  pages : Nat
  has_next : Bool
  has_prev : Bool
deriving DecidableEq, Repr

/-- app/api/book.py `read_books`: fetch the page and total, then compute
page = skip // limit + 1, pages = (total + limit - 1) // limit,
has_next = skip + limit < total, has_prev = skip > 0. -/
def read_books (db : DB) (user_id skip limit : Nat) (author_id : Option Nat)
    (genre : Option String) (publication_year : Option Int) : PaginatedResponse :=
  let bt := get_books_with_pagination db user_id skip limit author_id genre
    publication_year
  { items := bt.1, total := bt.2, page := skip / limit + 1, size := bt.1.length,
    pages := (bt.2 + limit - 1) / limit,
    has_next := decide (skip + limit < bt.2), has_prev := decide (0 < skip) }

/-- C10: with skip ≥ 0 and 1 ≤ limit ≤ 100, a book list request returns
min(limit, total − skip) items (Nat subtraction is the claim's
max(0, total − skip)), and the paginated metadata satisfies
page = skip/limit + 1, pages = ⌈total/limit⌉ (Mathlib ceiling division),
has_next = (skip + limit < total), has_prev = (skip > 0); the author list
endpoint returns min(limit, own-rows − skip) items likewise. -/
theorem pagination_contract (db : DB) (uid skip limit : Nat)
    (aid : Option Nat) (g : Option String) (py : Option Int)
    (h1 : 1 ≤ limit) (h2 : limit ≤ 100) :
    (read_books db uid skip limit aid g py).items.length =
      min limit ((read_books db uid skip limit aid g py).total - skip) ∧
    (read_books db uid skip limit aid g py).page = skip / limit + 1 ∧
    (read_books db uid skip limit aid g py).pages =
      (read_books db uid skip limit aid g py).total ⌈/⌉ limit ∧
    (read_books db uid skip limit aid g py).has_next =
      decide (skip + limit < (read_books db uid skip limit aid g py).total) ∧
    (read_books db uid skip limit aid g py).has_prev = decide (0 < skip) ∧
    (get_authors db uid skip limit).length =
      min limit ((db.authors.filter (fun a => a.user_id == uid)).length - skip) := by
  refine ⟨?_, rfl, ?_, rfl, rfl, ?_⟩
  · simp [read_books, get_books_with_pagination, List.length_take, List.length_drop]
  · rw [Nat.ceilDiv_eq_add_pred_div]
    rfl
  · simp [get_authors, List.length_take, List.length_drop]

/-- Five authors and five books owned by user 1 (the spec's pagination
example). -/
def db5 : DB :=
  { authors := [{ id := 1, name := "A1", biography := none, user_id := 1 },
                { id := 2, name := "A2", biography := none, user_id := 1 },
                { id := 3, name := "A3", biography := none, user_id := 1 },
                { id := 4, name := "A4", biography := none, user_id := 1 },
                { id := 5, name := "A5", biography := none, user_id := 1 }],
    books := [{ id := 1, title := "B1", description := none, genre := none,
                publication_year := none, author_id := 1, user_id := 1 },
              { id := 2, title := "B2", description := none, genre := none,
                publication_year := none, author_id := 1, user_id := 1 },
              { id := 3, title := "B3", description := none, genre := none,
                publication_year := none, author_id := 1, user_id := 1 },
              { id := 4, title := "B4", description := none, genre := none,
                publication_year := none, author_id := 1, user_id := 1 },
              { id := 5, title := "B5", description := none, genre := none,
                publication_year := none, author_id := 1, user_id := 1 }] }

/-- Witness for C10 at the spec's example: 5 stored rows, skip=0&limit=3
returns exactly 3 items and skip=3&limit=3 returns exactly 2, with the
metadata the claim predicts. -/
theorem pagination_contract_witness :
    (get_authors db5 1 0 3).length = 3 ∧
    (get_authors db5 1 3 3).length = 2 ∧
    (read_books db5 1 0 3 none none none).items.length = 3 ∧
    (read_books db5 1 3 3 none none none).items.length = 2 ∧
    (read_books db5 1 3 3 none none none).page = 2 ∧
    (read_books db5 1 0 3 none none none).pages = 2 ∧
    (read_books db5 1 0 3 none none none).has_next = true ∧
    (read_books db5 1 3 3 none none none).has_prev = true := by
  have hA := pagination_contract db5 1 0 3 none none none (by decide) (by decide)
  have hB := pagination_contract db5 1 3 3 none none none (by decide) (by decide)
  exact ⟨hA.2.2.2.2.2.trans (by decide), hB.2.2.2.2.2.trans (by decide),
    hA.1.trans (by decide), hB.1.trans (by decide), hB.2.1.trans (by decide),
    hA.2.2.1.trans (by decide), hA.2.2.2.1.trans (by decide),
    hB.2.2.2.2.1.trans (by decide)⟩

end HubSecurity
